import Mathlib

/-!
Shallow embedding of the ATT/GATT core of the `trouble` BLE host stack
(files `host/src/attribute.rs`, `host/src/attribute_server.rs`,
`host/src/gatt.rs`), used to settle the specification claims about the
attribute database builder, the attribute value codec, the ATT request
dispatcher, the subscription registry and the notifier.

Bytes are modelled as `Nat` values reduced modulo 256 where the source
performs `u8` stores; buffers are `List Nat`; fallible operations return
`Except`; the panic of an `unwrap()` is modelled as `Option.none`.
-/

deriving instance DecidableEq for Except

namespace Trouble

/-- Modelled from the spec: codec-level errors of the missing `cursor.rs`
(write cursor overflow / malformed read cursors); the spec coerces these
to protocol-level failures. -/
inductive CodecError where
  | insufficientSpace
deriving DecidableEq, Repr

/-- ATT error codes surfaced via ATT_ERROR_RSP (`att.rs` is not under
`src/`; the set of codes is taken from the spec's error taxonomy). -/
inductive AttErrorCode where
  | invalidHandle
  | readNotPermitted
  | writeNotPermitted
  | invalidPdu
  | insufficientAuthentication
  | requestNotSupported
  | invalidOffset
  | attributeNotFound
  | attributeNotLong
  | insufficientResources
  | unlikelyError
deriving DecidableEq, Repr

/-- Modelled from the spec: numeric values of the ATT error codes (the
spec's S5 scenario fixes WriteNotPermitted = 0x03; the rest follow the
standard ATT assignment the spec's taxonomy lists). -/
def AttErrorCode.toByte : AttErrorCode → Nat
  | .invalidHandle => 0x01
  | .readNotPermitted => 0x02
  | .writeNotPermitted => 0x03
  | .invalidPdu => 0x04
  | .insufficientAuthentication => 0x05
  | .requestNotSupported => 0x06
  | .invalidOffset => 0x07
  | .attributeNotFound => 0x0A
  | .attributeNotLong => 0x0B
  | .unlikelyError => 0x0E
  | .insufficientResources => 0x11

/-- A 16-bit or 128-bit UUID stored as raw little-endian bytes
(`types/uuid.rs` is not under `src/`; modelled from the spec: 2-byte or
16-byte little-endian storage). -/
inductive Uuid where
  | uuid16 (bytes : List Nat)
  | uuid128 (bytes : List Nat)
deriving DecidableEq, Repr

/-- Raw little-endian bytes of the UUID. -/
def Uuid.as_raw : Uuid → List Nat
  | .uuid16 b => b
  | .uuid128 b => b

/-- Modelled from the spec: a 16-bit UUID from a `u16` value, stored LE. -/
def Uuid.new_short (v : Nat) : Uuid :=
  .uuid16 [v % 256, v / 256 % 256]

/-- Modelled from the spec: FindInformation format byte, 1 for a 16-bit
UUID and 2 for a 128-bit UUID. -/
def Uuid.get_type : Uuid → Nat
  | .uuid16 _ => 1
  | .uuid128 _ => 2

/-- Modelled from the spec: remaining declaration bytes are interpreted
as a 16-bit or 128-bit UUID by length. -/
def Uuid.from_slice (b : List Nat) : Uuid :=
  if b.length = 2 then .uuid16 b else .uuid128 b

/-- Well-formedness of the stored byte length (2 for 16-bit, 16 for
128-bit UUIDs). -/
def Uuid.wf : Uuid → Prop
  | .uuid16 b => b.length = 2
  | .uuid128 b => b.length = 16

/-- UUID 0x2800, primary service declaration. -/
def PRIMARY_SERVICE_UUID16 : Uuid := .uuid16 [0x00, 0x28]

/-- UUID 0x2803, characteristic declaration. -/
def CHARACTERISTIC_UUID16 : Uuid := .uuid16 [0x03, 0x28]

/-- UUID 0x2902, client characteristic configuration descriptor. -/
def CHARACTERISTIC_CCCD_UUID16 : Uuid := .uuid16 [0x02, 0x29]

/-- Characteristic property bits, `CharacteristicProp` in `attribute.rs`. -/
def PROP_BROADCAST : Nat := 0x01
def PROP_READ : Nat := 0x02
def PROP_WRITE_WITHOUT_RESPONSE : Nat := 0x04
def PROP_WRITE : Nat := 0x08
def PROP_NOTIFY : Nat := 0x10
def PROP_INDICATE : Nat := 0x20
def PROP_AUTHENTICATED_WRITE : Nat := 0x40
def PROP_EXTENDED : Nat := 0x80

/-- CharacteristicProps.any: check whether any of the given property bits
is set in the 8-bit bitset. -/
def propsAny (props : Nat) (l : List Nat) : Bool :=
  l.any (fun p => p.land props != 0)

/-- The tagged attribute payload, `AttributeData` in `attribute.rs`.
The `props` field is the 8-bit `CharacteristicProps` bitset. -/
inductive AttributeData where
  | service (uuid : Uuid)
  | readOnlyData (props : Nat)
  | data (props : Nat)
  | declaration (props : Nat) (handle : Nat) (uuid : Uuid)
  | cccd (notifications : Bool) (indications : Bool)
deriving DecidableEq, Repr

/-- AttributeData::readable: everything is readable except a `Data`
attribute without the Read property bit. -/
def AttributeData.readable : AttributeData → Bool
  | .data props => props.land PROP_READ != 0
  | _ => true

/-- AttributeData::writable: a `Data` attribute with any of
Write, WriteWithoutResponse or AuthenticatedWrite; a CCCD; nothing else. -/
def AttributeData.writable : AttributeData → Bool
  | .data props =>
      props.land (PROP_WRITE + PROP_WRITE_WITHOUT_RESPONSE + PROP_AUTHENTICATED_WRITE) != 0
  | .cccd _ _ => true
  | _ => false

/-- The user attribute handler of `attribute_server.rs` (`AttrHandler`),
with suspension elided: reads take the current output buffer and return
the byte count plus the updated buffer, writes return unit. -/
structure AttrHandler where
  hread : Uuid → Nat → Nat → List Nat → Except AttErrorCode (Nat × List Nat)
  hwrite : Uuid → Nat → Nat → List Nat → Except AttErrorCode Unit

/-- Modelled from the spec: the write cursor of the missing `cursor.rs`,
a bounded byte writer over the response buffer; `written` is the byte
prefix produced so far and `cap` the buffer capacity. -/
structure WriteCursor where
  written : List Nat
  cap : Nat
deriving DecidableEq, Repr

def WriteCursor.new (cap : Nat) : WriteCursor := ⟨[], cap⟩

def WriteCursor.len (w : WriteCursor) : Nat := w.written.length

def WriteCursor.available (w : WriteCursor) : Nat := w.cap - w.written.length

/-- Modelled from the spec: write one byte, failing when the buffer is
exhausted. -/
def WriteCursor.writeU8 (w : WriteCursor) (v : Nat) : Except CodecError WriteCursor :=
  if w.written.length + 1 ≤ w.cap then .ok ⟨w.written ++ [v % 256], w.cap⟩
  else .error .insufficientSpace

/-- Modelled from the spec: write a `u16` little-endian. -/
def WriteCursor.writeU16 (w : WriteCursor) (v : Nat) : Except CodecError WriteCursor :=
  if w.written.length + 2 ≤ w.cap then .ok ⟨w.written ++ [v % 256, v / 256 % 256], w.cap⟩
  else .error .insufficientSpace

/-- Modelled from the spec: append a byte slice. -/
def WriteCursor.append (w : WriteCursor) (d : List Nat) : Except CodecError WriteCursor :=
  if w.written.length + d.length ≤ w.cap then .ok ⟨w.written ++ d, w.cap⟩
  else .error .insufficientSpace

/-- Modelled from the spec: drop everything written so far (used by
error_response, which overwrites partial bytes). -/
def WriteCursor.reset (w : WriteCursor) : WriteCursor := ⟨[], w.cap⟩

/-- Little-endian bytes of a `u16` value. -/
def u16le (v : Nat) : List Nat := [v % 256, v / 256 % 256]

/-- AttributeData::read of `attribute.rs`. The output buffer `out` is
passed in full; the result carries the reported byte count and the new
buffer contents (same length as `out`). Codec failures inside the
declaration arm are coerced to `UnlikelyError` as the spec's propagation
policy requires. -/
def AttributeData.read (hnd : AttrHandler) (auuid : Uuid) (ahandle : Nat)
    (self : AttributeData) (offset : Nat) (out : List Nat) :
    Except AttErrorCode (Nat × List Nat) :=
  if !self.readable then .error .readNotPermitted
  else
    match self with
    | .readOnlyData _ => hnd.hread auuid ahandle offset out
    | .data _ => hnd.hread auuid ahandle offset out
    | .service u =>
        let val := u.as_raw
        if offset > val.length then .ok (0, out)
        else
          let len := min out.length (val.length - offset)
          .ok (len, ((val.drop offset).take len) ++ out.drop len)
    | .cccd n i =>
        if offset > 0 then .error .invalidOffset
        else if out.length < 2 then .error .unlikelyError
        else
          let v := (if n then 1 else 0) ||| (if i then 2 else 0)
          .ok (2, out.set 0 v)
    | .declaration props handle u =>
        let val := u.as_raw
        if offset > val.length + 3 then .ok (0, out)
        else
          let w0 := WriteCursor.new out.length
          let step : Except CodecError WriteCursor :=
            if offset = 0 then
              match w0.writeU8 props with
              | .error e => .error e
              | .ok w1 => w1.writeU16 handle
            else if offset = 1 then w0.writeU16 handle
            else if offset = 2 then w0.writeU8 (handle / 256 % 256)
            else .ok w0
          match step with
          | .error _ => .error .unlikelyError
          | .ok w1 =>
            let to_write := min w1.available val.length
            match (if to_write > 0 then w1.append (val.take to_write) else .ok w1) with
            | .error _ => .error .unlikelyError
            | .ok w2 => .ok (w2.len, w2.written ++ out.drop w2.len)

/-- AttributeData::write of `attribute.rs`: returns the updated
attribute payload on success (the source mutates in place). -/
def AttributeData.write (hnd : AttrHandler) (auuid : Uuid) (ahandle : Nat)
    (self : AttributeData) (offset : Nat) (d : List Nat) :
    Except AttErrorCode AttributeData :=
  match self with
  | .data props =>
      if !(AttributeData.data props).writable then .error .writeNotPermitted
      else
        match hnd.hwrite auuid ahandle offset d with
        | .error e => .error e
        | .ok _ => .ok (.data props)
  | .cccd _ _ =>
      if offset > 0 then .error .invalidOffset
      else if d.isEmpty then .error .unlikelyError
      else .ok (.cccd ((d.headD 0).land 0x01 != 0) ((d.headD 0).land 0x02 != 0))
  | _ => .error .writeNotPermitted

/-- AttributeData::decode_declaration of `attribute.rs`: split the value
bytes as props(1), handle(2, LE) and the remaining UUID bytes. -/
def AttributeData.decode_declaration (d : List Nat) : Except CodecError AttributeData :=
  match d with
  | p :: h0 :: h1 :: rest => .ok (.declaration p (h0 + 256 * h1) (Uuid.from_slice rest))
  | _ => .error .insufficientSpace

/-- One database record, `Attribute` in `attribute.rs`. -/
structure Attr where
  uuid : Uuid
  handle : Nat
  last_handle_in_group : Nat
  data : AttributeData
deriving DecidableEq, Repr

/-- The attribute table: the ordered attribute sequence plus the
monotonic `next_handle` counter (field `handle` in the source, starting
at 1); the fixed capacity and its full-table panic are outside the
claims and not modelled. -/
structure AttributeTable where
  attributes : List Attr
  handle : Nat
deriving DecidableEq, Repr

/-- An empty table with `next_handle` 1, `AttributeTable::new`. -/
def AttributeTable.empty : AttributeTable := ⟨[], 1⟩

/-- AttributeTable::push: stamp the attribute with the current
`next_handle`, append it, and advance the counter. -/
def AttributeTable.push (t : AttributeTable) (a : Attr) : AttributeTable :=
  { attributes := t.attributes ++ [{ a with handle := t.handle }], handle := t.handle + 1 }

/-- AttributeTable::add_service: push the primary-service declaration and
return the new table together with the session's start index (the
sequence position where the service begins). -/
def add_service (t : AttributeTable) (svc : Uuid) : AttributeTable × Nat :=
  (t.push { uuid := PRIMARY_SERVICE_UUID16, handle := 0, last_handle_in_group := 0,
            data := .service svc },
   t.attributes.length)

/-- ServiceBuilder::add_characteristic_internal: push the declaration
(with `value_handle = next_handle + 1`), the value attribute carrying
`d`, and, when Notify or Indicate is set, a CCCD. -/
def add_characteristic_internal (t : AttributeTable) (u : Uuid) (props : Nat)
    (d : AttributeData) : AttributeTable :=
  let next := t.handle + 1
  let t1 := t.push { uuid := CHARACTERISTIC_UUID16, handle := 0, last_handle_in_group := 0,
                     data := .declaration props next u }
  let t2 := t1.push { uuid := u, handle := 0, last_handle_in_group := 0, data := d }
  if propsAny props [PROP_NOTIFY, PROP_INDICATE] then
    t2.push { uuid := CHARACTERISTIC_CCCD_UUID16, handle := 0, last_handle_in_group := 0,
              data := .cccd false false }
  else t2

/-- All pushes performed during a builder session (characteristics and
descriptors alike are plain pushes of a uuid plus payload). -/
def session_push_all (t : AttributeTable) (items : List (Uuid × AttributeData)) :
    AttributeTable :=
  items.foldl
    (fun acc it =>
      acc.push { uuid := it.1, handle := 0, last_handle_in_group := 0, data := it.2 })
    t

/-- ServiceBuilder::drop, the seal: stamp every attribute from the
session's start index to the end with `last_handle_in_group =
next_handle + 1`, then jump `next_handle` to the next 16-aligned value. -/
def ServiceBuilder.seal (t : AttributeTable) (start : Nat) : AttributeTable :=
  let last_handle := t.handle + 1
  { attributes :=
      t.attributes.take start ++
        (t.attributes.drop start).map (fun a => { a with last_handle_in_group := last_handle }),
    handle := t.handle + (0x10 - t.handle % 0x10) }

/-- A whole builder session: add the service, perform the session's
pushes, and seal on drop. -/
def build_session (t : AttributeTable) (svc : Uuid) (items : List (Uuid × AttributeData)) :
    AttributeTable :=
  let p := add_service t svc
  ServiceBuilder.seal (session_push_all p.1 items) p.2

/-- Characteristic handle pair returned by the builders and consumed by
the notifier (`Characteristic` in `attribute.rs`). -/
structure Characteristic where
  handle : Nat
  cccd_handle : Option Nat
deriving DecidableEq, Repr

/-- The subscription registry (`NotificationTable`): a bounded list of
(cccd_handle, connection) entries, `cccd_handle = 0` marking a free
slot; connections are their raw `ConnHandle` values. -/
def emptyNotificationTable : List (Nat × Nat) := List.replicate 4 (0, 0)

/-- AttributeServer::should_notify: linear scan for a matching
(cccd_handle, connection) entry. -/
def should_notify (st : List (Nat × Nat)) (conn : Nat) (cccd_handle : Nat) : Bool :=
  st.any (fun e => e.1 == cccd_handle && e.2 == conn)

/-- Enable arm of AttributeServer::set_notify: occupy the first free
slot; a full registry drops the update silently. -/
def set_notify_enable (cccd_handle conn : Nat) : List (Nat × Nat) → List (Nat × Nat)
  | [] => []
  | e :: rest =>
      if e.1 == 0 then (cccd_handle, conn) :: rest
      else e :: set_notify_enable cccd_handle conn rest

/-- Disable arm of AttributeServer::set_notify: zero the first matching
slot. -/
def set_notify_disable (cccd_handle conn : Nat) : List (Nat × Nat) → List (Nat × Nat)
  | [] => []
  | e :: rest =>
      if e.1 == cccd_handle && e.2 == conn then (0, 0) :: rest
      else e :: set_notify_disable cccd_handle conn rest

/-- AttributeServer::set_notify. -/
def set_notify (st : List (Nat × Nat)) (conn cccd_handle : Nat) (enable : Bool) :
    List (Nat × Nat) :=
  if enable then set_notify_enable cccd_handle conn st
  else set_notify_disable cccd_handle conn st

/-- AttributeServer::error_response: reset the cursor and emit
opcode(0x01), request opcode, handle(LE) and the error code byte. -/
def error_response (w : WriteCursor) (opcode handle : Nat) (code : AttErrorCode) :
    Except CodecError (List Nat) :=
  match w.reset.writeU8 0x01 with
  | .error e => .error e
  | .ok w1 =>
      match w1.writeU8 opcode with
      | .error e => .error e
      | .ok w2 =>
          match w2.writeU16 handle with
          | .error e => .error e
          | .ok w3 =>
              match w3.writeU8 code.toByte with
              | .error e => .error e
              | .ok w4 => .ok w4.written

/-- Scan loop of AttributeServer::handle_write_cmd: find the attribute
with the given handle; when writable, perform the write and `unwrap()`
the result — an error is a panic, modelled as `none`. -/
def write_cmd_scan (hnd : AttrHandler) (handle : Nat) (d : List Nat) :
    List Attr → Option (List Attr)
  | [] => some []
  | a :: rest =>
      if a.handle == handle then
        if a.data.writable then
          match a.data.write hnd a.uuid a.handle 0 d with
          | .error _ => none
          | .ok nd => some ({ a with data := nd } :: rest)
        else some (a :: rest)
      else (write_cmd_scan hnd handle d rest).map (a :: ·)

/-- AttributeServer::handle_write_cmd: fire the write and report 0
response bytes; `none` models the panic of the unwrapped write error. -/
def handle_write_cmd (table : List Attr) (handle : Nat) (d : List Nat)
    (hnd : AttrHandler) : Option (List Attr × Nat) :=
  (write_cmd_scan hnd handle d table).map (fun t => (t, 0))

/-- Scan loop of AttributeServer::handle_write_req: find the attribute,
write at offset 0 when writable (otherwise the initial
AttributeNotFound error stands), and on a successful CCCD write update
the registry with the new notifications flag. -/
def write_req_scan (hnd : AttrHandler) (conn handle : Nat) (d : List Nat)
    (st : List (Nat × Nat)) :
    List Attr → Except AttErrorCode Unit × List Attr × List (Nat × Nat)
  | [] => (.error .attributeNotFound, [], st)
  | a :: rest =>
      if a.handle == handle then
        if a.data.writable then
          match a.data.write hnd a.uuid a.handle 0 d with
          | .error e => (.error e, a :: rest, st)
          | .ok nd =>
              let st1 :=
                match nd with
                | .cccd notifications _ => set_notify st conn handle notifications
                | _ => st
              (.ok (), { a with data := nd } :: rest, st1)
        else (.error .attributeNotFound, a :: rest, st)
      else
        let r := write_req_scan hnd conn handle d st rest
        (r.1, a :: r.2.1, r.2.2)

/-- AttributeServer::handle_write_req: delegate the write, then answer
with the single WRITE_RSP byte 0x13 or an error response. -/
def handle_write_req (table : List Attr) (st : List (Nat × Nat)) (hnd : AttrHandler)
    (conn handle : Nat) (d : List Nat) (cap : Nat) :
    Except CodecError (List Nat × List Attr × List (Nat × Nat)) :=
  let r := write_req_scan hnd conn handle d st table
  let w := WriteCursor.new cap
  match r.1 with
  | .ok _ =>
      match w.writeU8 0x13 with
      | .error e => .error e
      | .ok w1 => .ok (w1.written, r.2.1, r.2.2)
  | .error e =>
      match error_response w 0x12 handle e with
      | .error ce => .error ce
      | .ok bytes => .ok (bytes, r.2.1, r.2.2)

/-- Scan loop of AttributeServer::handle_find_type_value: for every
primary-service attribute in range whose service UUID bytes equal the
searched value, append handle(2), last_handle_in_group(2) and the
service UUID bytes; stop when the response buffer cannot hold another
triple. The trailing `write_ref(uuid)` lives in the missing `cursor.rs`
and is modelled from the spec's triple format
handle(2), last_handle_in_group(2), service_uuid_bytes. -/
def find_type_value_scan (start endh : Nat) (attr_type : Uuid) (attr_value : List Nat) :
    List Attr → WriteCursor → Except CodecError WriteCursor
  | [], w => .ok w
  | a :: rest, w =>
      if start ≤ a.handle && a.handle ≤ endh && a.uuid == attr_type then
        match a.data with
        | .service u =>
            if u.as_raw == attr_value then
              if w.available < 4 + u.as_raw.length then .ok w
              else
                match (match w.writeU16 a.handle with
                  | .error e => .error e
                  | .ok w1 =>
                      match w1.writeU16 a.last_handle_in_group with
                      | .error e => .error e
                      | .ok w2 => w2.append u.as_raw : Except CodecError WriteCursor) with
                | .error e => .error e
                | .ok w3 => find_type_value_scan start endh attr_type attr_value rest w3
            else find_type_value_scan start endh attr_type attr_value rest w
        | _ => find_type_value_scan start endh attr_type attr_value rest w
      else find_type_value_scan start endh attr_type attr_value rest w

/-- AttributeServer::handle_find_type_value: opcode 0x07 followed by the
matched triples; with zero triples, an AttributeNotFound error
response. -/
def handle_find_type_value (table : List Attr) (cap start endh attr_type : Nat)
    (attr_value : List Nat) : Except CodecError (List Nat) :=
  let atype := Uuid.new_short attr_type
  match (WriteCursor.new cap).writeU8 0x07 with
  | .error e => .error e
  | .ok w0 =>
      match find_type_value_scan start endh atype attr_value table w0 with
      | .error e => .error e
      | .ok w1 =>
          if w1.len > 1 then .ok w1.written
          else error_response w1 0x06 start AttErrorCode.attributeNotFound

/-- The decoded ATT requests the claims exercise (`AttReq` lives in the
missing `att.rs`; the byte layouts are the spec's opcode table). -/
inductive AttReq where
  | write (handle : Nat) (d : List Nat)
  | writeCmd (handle : Nat) (d : List Nat)
  | findByTypeValue (start_handle end_handle att_type : Nat) (att_value : List Nat)
deriving Repr

/-- AttributeServer::process for the requests above: dispatch, then turn
a zero-length response into `Option.none` (no response). The outer
`Option` marks a panic inside a handler arm (`none` = panicked). -/
def process (table : List Attr) (st : List (Nat × Nat)) (conn : Nat) (req : AttReq)
    (cap : Nat) (hnd : AttrHandler) :
    Option (Except CodecError (Option (List Nat) × List Attr × List (Nat × Nat))) :=
  match req with
  | .writeCmd handle d =>
      match handle_write_cmd table handle d hnd with
      | none => none
      | some (t1, len) => some (.ok (if len > 0 then some [] else none, t1, st))
  | .write handle d =>
      match handle_write_req table st hnd conn handle d cap with
      | .error e => some (.error e)
      | .ok (bytes, t1, st1) =>
          some (.ok (if bytes.length > 0 then some bytes else none, t1, st1))
  | .findByTypeValue s e ty v =>
      match handle_find_type_value table cap s e ty v with
      | .error er => some (.error er)
      | .ok bytes =>
          some (.ok (if bytes.length > 0 then some bytes else none, table, st))

/-- Failures of GattServer::notify: a characteristic without a CCCD
handle fails with `Other`; cursor overflow surfaces as a codec error. -/
inductive NotifyError where
  | other
  | codec
deriving DecidableEq, Repr

/-- GattServer::notify of `gatt.rs`: fail with `Other` without a CCCD
handle; succeed silently when the connection is not subscribed;
otherwise build the ATT payload 0x1B, value_handle(2, LE), value inside
the data part (capacity `mtu - 4`), prepend the 4-byte L2CAP header
(payload length LE, channel 4) and send it. `ok none` means no PDU was
sent, `ok (some bytes)` the single PDU handed to the ACL sender. -/
def notify (st : List (Nat × Nat)) (ch : Characteristic) (conn : Nat)
    (value : List Nat) (mtu : Nat) : Except NotifyError (Option (List Nat)) :=
  match ch.cccd_handle with
  | none => .error .other
  | some cccd =>
      if !should_notify st conn cccd then .ok none
      else
        match (match (WriteCursor.new (mtu - 4)).writeU8 0x1B with
          | .error e => .error e
          | .ok d1 =>
              match d1.writeU16 ch.handle with
              | .error e => .error e
              | .ok d2 => d2.append value : Except CodecError WriteCursor) with
        | .error _ => .error .codec
        | .ok d3 =>
            match (match (WriteCursor.new 4).writeU16 d3.len with
              | .error e => .error e
              | .ok h1 => h1.writeU16 4 : Except CodecError WriteCursor) with
            | .error _ => .error .codec
            | .ok h2 => .ok (some (h2.written ++ d3.written))

/-- A user handler that reads nothing and accepts every write; used to
instantiate handler-polymorphic operations on concrete inputs. -/
def trivial_handler : AttrHandler :=
  { hread := fun _ _ _ out => .ok (0, out),
    hwrite := fun _ _ _ _ => .ok () }

/-- Database of the spec's S3 scenario: one primary service with UUID
0x180F occupying handles 0x0010 to 0x001F. -/
def battery_table : List Attr :=
  [{ uuid := PRIMARY_SERVICE_UUID16, handle := 0x10, last_handle_in_group := 0x1F,
     data := .service (Uuid.uuid16 [0x0F, 0x18]) }]

/-- A one-attribute database holding a fresh CCCD at handle 4. -/
def cccd_table : List Attr :=
  [{ uuid := CHARACTERISTIC_CCCD_UUID16, handle := 4, last_handle_in_group := 5,
     data := .cccd false false }]

/-- A subscription registry whose four slots are all taken by other
CCCD handles. -/
def full_registry : List (Nat × Nat) := [(9, 1), (9, 2), (9, 3), (9, 4)]

/-- A concrete builder session: empty table, one service (UUID 0x180F)
with one read-only-property characteristic (UUID 0x2A19, props Read),
sealed. Members get handles 1, 2, 3. -/
def c1_example : AttributeTable :=
  let p := add_service AttributeTable.empty (Uuid.uuid16 [0x0F, 0x18])
  ServiceBuilder.seal
    (add_characteristic_internal p.1 (Uuid.uuid16 [0x19, 0x2A]) PROP_READ
      (.data PROP_READ)) p.2

/-- Enabling a subscription registers the pair whenever the registry has
a free slot or the pair is already present. -/
lemma should_notify_after_enable (h c : Nat) (st : List (Nat × Nat))
    (hfree : (∃ e ∈ st, e.1 = 0) ∨ (h, c) ∈ st) :
    should_notify (set_notify_enable h c st) c h = true := by
  induction st with
  | nil => simp at hfree
  | cons e rest ih =>
      by_cases he : e.1 = 0
      · simp [set_notify_enable, he, should_notify]
      · rcases hfree with ⟨f, hf, hf0⟩ | hmem
        · rcases List.mem_cons.mp hf with rfl | hfr
          · exact absurd hf0 he
          · have := ih (Or.inl ⟨f, hfr, hf0⟩)
            simp [set_notify_enable, he, should_notify] at this ⊢
            exact Or.inr this
        · rcases List.mem_cons.mp hmem with rfl | hmr
          · simp [set_notify_enable, he, should_notify]
          · have := ih (Or.inr hmr)
            simp [set_notify_enable, he, should_notify] at this ⊢
            exact Or.inr this

/-- A list with no matching entry has a false scan. -/
lemma should_notify_eq_false_of_countP_zero (h c : Nat) (st : List (Nat × Nat))
    (hz : st.countP (fun e => e.1 == h && e.2 == c) = 0) :
    should_notify st c h = false := by
  rw [should_notify, List.any_eq_false]
  intro e he
  have := List.countP_eq_zero.mp hz e he
  simpa using this

/-- Disabling clears the subscription when the registry held at most one
matching entry and the handle is a real (nonzero) attribute handle. -/
lemma should_notify_after_disable (h c : Nat) (st : List (Nat × Nat))
    (hh : h ≠ 0)
    (hcount : st.countP (fun e => e.1 == h && e.2 == c) ≤ 1) :
    should_notify (set_notify_disable h c st) c h = false := by
  induction st with
  | nil => simp [set_notify_disable, should_notify]
  | cons e rest ih =>
      by_cases hm : (e.1 == h && e.2 == c) = true
      · have hc : (e :: rest).countP (fun x => x.1 == h && x.2 == c)
            = rest.countP (fun x => x.1 == h && x.2 == c) + 1 := by
          simp [List.countP_cons, hm]
        have hz : rest.countP (fun x => x.1 == h && x.2 == c) = 0 := by omega
        have hrest := should_notify_eq_false_of_countP_zero h c rest hz
        simp only [should_notify] at hrest
        have h0 : ((0 : Nat) == h) = false := beq_eq_false_iff_ne.mpr (Ne.symm hh)
        simp [set_notify_disable, hm, should_notify, h0, hrest]
      · have hc : (e :: rest).countP (fun x => x.1 == h && x.2 == c)
            = rest.countP (fun x => x.1 == h && x.2 == c) := by
          simp [List.countP_cons, hm]
        have hrec := ih (by omega)
        simp only [should_notify] at hrec
        have hm1 : (e.1 == h && e.2 == c) = false := by simpa using hm
        simp [set_notify_disable, hm1, should_notify, hrec]

/-- C2: the claim expects every WriteCmd to be fire-and-forget with any
write error swallowed; the code instead unwraps the write result, so a
failing write (here: an empty-payload write command to a CCCD, which
`AttributeData::write` rejects with UnlikelyError) panics the
dispatcher — modelled as `none` — instead of returning no response. -/
theorem C2_write_cmd_panics :
    process cccd_table emptyNotificationTable 7 (.writeCmd 4 []) 23 trivial_handler
      = none := by
  rfl

/-- C3 counterexample: the FindByTypeValue response for the S3 scenario
is not the five claimed bytes 07 10 00 1F 00 — the dispatcher also
appends the service UUID bytes after each handle pair. -/
theorem C3_counterexample :
    handle_find_type_value battery_table 23 1 0xFFFF 0x2800 [0x0F, 0x18]
      ≠ .ok [0x07, 0x10, 0x00, 0x1F, 0x00] := by
  decide

/-- C3 amended: against a database with exactly one primary service with
UUID 0x180F at handles 0x0010 to 0x001F, the FindByTypeValue request
(start 0x0001, end 0xFFFF, type 0x2800, value 0F 18) produces exactly
the bytes 07 10 00 1F 00 0F 18: each triple carries handle, group-end
handle and the service UUID bytes, which are not omitted. -/
theorem C3_amended_response :
    handle_find_type_value battery_table 23 1 0xFFFF 0x2800 [0x0F, 0x18]
      = .ok [0x07, 0x10, 0x00, 0x1F, 0x00, 0x0F, 0x18] := by
  decide

/-- C5: starting from the empty subscription registry, enabling
notifications for connection c on a (nonzero) CCCD handle makes
should_notify true; disabling makes it false; and after enabling two
distinct connections on the same handle and disabling one, only the
other still returns true. -/
theorem C5_subscription_registry (c c1 c2 h : Nat) (hh : h ≠ 0) (hcc : c1 ≠ c2) :
    should_notify (set_notify emptyNotificationTable c h true) c h = true
    ∧ should_notify
        (set_notify (set_notify emptyNotificationTable c h true) c h false) c h = false
    ∧ should_notify
        (set_notify
          (set_notify (set_notify emptyNotificationTable c1 h true) c2 h true)
          c1 h false) c2 h = true
    ∧ should_notify
        (set_notify
          (set_notify (set_notify emptyNotificationTable c1 h true) c2 h true)
          c1 h false) c1 h = false := by
  have hb : (h == 0) = false := beq_eq_false_iff_ne.mpr hh
  have h0 : ((0 : Nat) == h) = false := beq_eq_false_iff_ne.mpr (Ne.symm hh)
  have hc21 : (c2 == c1) = false := beq_eq_false_iff_ne.mpr (Ne.symm hcc)
  simp [set_notify, set_notify_enable, set_notify_disable, should_notify,
    emptyNotificationTable, hb, h0, hc21]

/-- C5 witness: the registry toggles as stated for connection 3 (and the
pair 1, 2) on CCCD handle 4. -/
theorem C5_subscription_registry_witness :
    should_notify (set_notify emptyNotificationTable 3 4 true) 3 4 = true
    ∧ should_notify
        (set_notify (set_notify emptyNotificationTable 3 4 true) 3 4 false) 3 4 = false
    ∧ should_notify
        (set_notify
          (set_notify (set_notify emptyNotificationTable 1 4 true) 2 4 true)
          1 4 false) 2 4 = true
    ∧ should_notify
        (set_notify
          (set_notify (set_notify emptyNotificationTable 1 4 true) 2 4 true)
          1 4 false) 1 4 = false :=
  C5_subscription_registry 3 1 2 4 (by decide) (by decide)

/-- C9: set_notify does not deduplicate on enable — from the empty
registry, two enables for the same (connection, nonzero handle) pair
occupy two slots, and one disable clears only one of them, so
should_notify still returns true. -/
theorem C9_enable_no_dedup (c h : Nat) (hh : h ≠ 0) :
    (set_notify (set_notify emptyNotificationTable c h true) c h true).countP
        (fun e => e.1 == h && e.2 == c) = 2
    ∧ (set_notify
        (set_notify (set_notify emptyNotificationTable c h true) c h true)
        c h false).countP (fun e => e.1 == h && e.2 == c) = 1
    ∧ should_notify
        (set_notify
          (set_notify (set_notify emptyNotificationTable c h true) c h true)
          c h false) c h = true := by
  have hb : (h == 0) = false := beq_eq_false_iff_ne.mpr hh
  have h0 : ((0 : Nat) == h) = false := beq_eq_false_iff_ne.mpr (Ne.symm hh)
  simp [set_notify, set_notify_enable, set_notify_disable, should_notify,
    emptyNotificationTable, List.countP_cons, hb, h0]

/-- C9 witness: two enables for connection 7 on CCCD handle 4 take two
slots; one disable leaves one slot, and should_notify stays true. -/
theorem C9_enable_no_dedup_witness :
    (set_notify (set_notify emptyNotificationTable 7 4 true) 7 4 true).countP
        (fun e => e.1 == 4 && e.2 == 7) = 2
    ∧ (set_notify
        (set_notify (set_notify emptyNotificationTable 7 4 true) 7 4 true)
        7 4 false).countP (fun e => e.1 == 4 && e.2 == 7) = 1
    ∧ should_notify
        (set_notify
          (set_notify (set_notify emptyNotificationTable 7 4 true) 7 4 true)
          7 4 false) 7 4 = true :=
  C9_enable_no_dedup 7 4 (by decide)

/-- Setting index 0 leaves the tail of a list unchanged. -/
lemma drop_one_set_zero (l : List Nat) (v : Nat) : (l.set 0 v).drop 1 = l.drop 1 := by
  cases l <;> simp

/-- C10: reading a CCCD at offset 0 into a buffer of length at least 2
returns Ok(2) but stores only the flag byte at index 0; every later
byte of the buffer keeps its prior contents, whatever they were. -/
theorem C10_cccd_read_preserves_tail (n i : Bool) (out : List Nat)
    (hnd : AttrHandler) (u : Uuid) (ah : Nat) (hout : 2 ≤ out.length) :
    AttributeData.read hnd u ah (.cccd n i) 0 out
      = .ok (2, out.set 0 ((if n then 1 else 0) ||| (if i then 2 else 0)))
    ∧ (out.set 0 ((if n then 1 else 0) ||| (if i then 2 else 0))).drop 1 = out.drop 1
    ∧ (out.set 0 ((if n then 1 else 0) ||| (if i then 2 else 0))).length = out.length := by
  have hlen : ¬ out.length < 2 := by omega
  refine ⟨?_, drop_one_set_zero out _, List.length_set out 0 _⟩
  simp [AttributeData.read, AttributeData.readable, hlen]

/-- C10 witness: reading a fully-set CCCD into the buffer [9, 9] yields
Ok(2) with contents [3, 9]; the second byte is untouched. -/
theorem C10_cccd_read_preserves_tail_witness :
    AttributeData.read trivial_handler CHARACTERISTIC_CCCD_UUID16 4
        (.cccd true true) 0 [9, 9] = .ok (2, [3, 9])
    ∧ ([9, 9].set 0 3).drop 1 = [9]
    ∧ ([9, 9].set 0 3).length = 2 :=
  C10_cccd_read_preserves_tail true true [9, 9] trivial_handler
    CHARACTERISTIC_CCCD_UUID16 4 (by decide)

/-- Pushes advance `next_handle` once per pushed attribute. -/
lemma session_push_all_handle (items : List (Uuid × AttributeData)) (t : AttributeTable) :
    (session_push_all t items).handle = t.handle + items.length := by
  induction items generalizing t with
  | nil => simp [session_push_all]
  | cons it rest ih =>
      simp [session_push_all, List.foldl_cons] at ih ⊢
      rw [ih]
      simp [AttributeTable.push]
      omega

/-- Pushes append one attribute each to the sequence. -/
lemma session_push_all_length (items : List (Uuid × AttributeData)) (t : AttributeTable) :
    (session_push_all t items).attributes.length = t.attributes.length + items.length := by
  induction items generalizing t with
  | nil => simp [session_push_all]
  | cons it rest ih =>
      simp [session_push_all, List.foldl_cons] at ih ⊢
      rw [ih]
      simp [AttributeTable.push]
      omega

/-- Through any run of pushes, the last attribute of the sequence holds
the handle just below `next_handle`. -/
lemma session_push_all_getLast (items : List (Uuid × AttributeData)) (t : AttributeTable)
    (hinv : t.attributes.getLast?.map Attr.handle = some (t.handle - 1)) :
    (session_push_all t items).attributes.getLast?.map Attr.handle
      = some ((session_push_all t items).handle - 1) := by
  induction items generalizing t with
  | nil => simpa [session_push_all] using hinv
  | cons it rest ih =>
      simp only [session_push_all, List.foldl_cons] at ih ⊢
      apply ih
      simp [AttributeTable.push, List.getLast?_concat]

/-- The seal rewrites exactly the session's suffix of the sequence. -/
lemma seal_drop (t : AttributeTable) (start : Nat) (hs : start ≤ t.attributes.length) :
    (ServiceBuilder.seal t start).attributes.drop start
      = (t.attributes.drop start).map
          (fun a => { a with last_handle_in_group := t.handle + 1 }) := by
  have hlen : (t.attributes.take start).length = start := by
    simp [List.length_take]
    omega
  have h2 := List.drop_left (t.attributes.take start)
      ((t.attributes.drop start).map
        (fun a => { a with last_handle_in_group := t.handle + 1 }))
  rw [hlen] at h2
  simpa [ServiceBuilder.seal] using h2

/-- The post-seal handle jump lands on a multiple of 16. -/
lemma seal_handle_aligned (h : Nat) : (h + (0x10 - h % 0x10)) % 0x10 = 0 := by
  omega

set_option maxRecDepth 4000 in
/-- C1 counterexample: a concrete session (one service, one
characteristic, members at handles 1, 2, 3) seals every member's
last_handle_in_group to 5, not to the last member's handle 3; the
claim's per-member equality fails even though next_handle lands on 16. -/
theorem C1_counterexample :
    c1_example.attributes.map (fun a => (a.handle, a.last_handle_in_group))
      = [(1, 5), (2, 5), (3, 5)]
    ∧ ¬ (∀ a ∈ c1_example.attributes, a.last_handle_in_group = 3)
    ∧ c1_example.handle = 16 := by
  decide

/-- C1 amended: after any builder session seals, every attribute pushed
during the session carries last_handle_in_group equal to the pre-seal
next_handle plus one — which is two past the handle of the last pushed
member, not that member's handle — and the table's next_handle is a
multiple of 16. -/
theorem C1_seal_group_stamp (t : AttributeTable) (svc : Uuid)
    (items : List (Uuid × AttributeData)) :
    ((build_session t svc items).attributes.drop t.attributes.length).all
        (fun a =>
          a.last_handle_in_group
            == (session_push_all (add_service t svc).1 items).handle + 1) = true
    ∧ (session_push_all (add_service t svc).1 items).attributes.getLast?.map Attr.handle
        = some ((session_push_all (add_service t svc).1 items).handle - 1)
    ∧ (build_session t svc items).handle % 16 = 0 := by
  have hmidlen :
      t.attributes.length
        ≤ (session_push_all (add_service t svc).1 items).attributes.length := by
    rw [session_push_all_length]
    simp [add_service, AttributeTable.push]
    omega
  refine ⟨?_, ?_, ?_⟩
  · rw [show build_session t svc items
        = ServiceBuilder.seal (session_push_all (add_service t svc).1 items)
            t.attributes.length from rfl]
    rw [seal_drop _ _ hmidlen]
    simp only [List.all_eq_true]
    intro x hx
    obtain ⟨a, ha, rfl⟩ := List.mem_map.mp hx
    simp
  · apply session_push_all_getLast
    simp [add_service, AttributeTable.push, List.getLast?_concat]
  · rw [show build_session t svc items
        = ServiceBuilder.seal (session_push_all (add_service t svc).1 items)
            t.attributes.length from rfl]
    exact seal_handle_aligned _

set_option maxRecDepth 10000 in
/-- The CCCD read byte rebuilt from the two stored flags equals the low
two bits of the written byte. -/
lemma cccd_flag_byte : ∀ b < 256,
    ((if b.land 1 = 0 then 0 else 1) ||| (if b.land 2 = 0 then 0 else 2)) = b.land 3 := by
  decide

/-- C6: writing byte b to a CCCD stores notifications = bit0 and
indications = bit1, and reading it back stores exactly b AND 0x03 as the
flag byte while reporting 2 bytes: the upper six bits are masked away. -/
theorem C6_cccd_write_read_roundtrip (b : Nat) (drest out : List Nat) (n0 i0 : Bool)
    (hnd : AttrHandler) (u : Uuid) (ah : Nat) (hb : b < 256) (hout : 2 ≤ out.length) :
    AttributeData.write hnd u ah (.cccd n0 i0) 0 (b :: drest)
      = .ok (.cccd (b.land 1 != 0) (b.land 2 != 0))
    ∧ AttributeData.read hnd u ah (.cccd (b.land 1 != 0) (b.land 2 != 0)) 0 out
      = .ok (2, out.set 0 (b.land 3)) := by
  have hlen : ¬ out.length < 2 := by omega
  constructor
  · simp [AttributeData.write]
  · simp [AttributeData.read, AttributeData.readable, hlen]
    rw [cccd_flag_byte b hb]

/-- C6 witness: writing 0xFF then reading back yields flag byte 3 and a
reported length of 2. -/
theorem C6_cccd_write_read_roundtrip_witness :
    AttributeData.write trivial_handler CHARACTERISTIC_CCCD_UUID16 4
        (.cccd false false) 0 [0xFF] = .ok (.cccd true true)
    ∧ AttributeData.read trivial_handler CHARACTERISTIC_CCCD_UUID16 4
        (.cccd true true) 0 [9, 9] = .ok (2, [3, 9]) :=
  C6_cccd_write_read_roundtrip 0xFF [] [9, 9] false false trivial_handler
    CHARACTERISTIC_CCCD_UUID16 4 (by decide) (by decide)

/-- A well-formed UUID decodes from its own raw bytes. -/
lemma from_slice_as_raw (u : Uuid) (hu : u.wf) : Uuid.from_slice u.as_raw = u := by
  rcases u with b | b <;> simp [Uuid.wf] at hu <;> simp [Uuid.from_slice, Uuid.as_raw, hu]

/-- A well-formed UUID has 2 or 16 raw bytes, in particular at least
one. -/
lemma as_raw_length_pos (u : Uuid) (hu : u.wf) : 0 < u.as_raw.length := by
  rcases u with b | b <;> simp [Uuid.wf] at hu <;> simp [Uuid.as_raw, hu]

/-- C7: the on-wire characteristic declaration props(1), value_handle(2,
LE), uuid_bytes produced by a read at offset 0 into a sufficiently large
buffer decodes back to the same props, value handle and UUID. -/
theorem C7_declaration_roundtrip (p vh : Nat) (u : Uuid) (out : List Nat)
    (hnd : AttrHandler) (cu : Uuid) (ah : Nat)
    (hp : p < 256) (hh : vh < 65536) (hu : u.wf)
    (hout : 3 + u.as_raw.length ≤ out.length) :
    AttributeData.read hnd cu ah (.declaration p vh u) 0 out
      = .ok (3 + u.as_raw.length,
             (p :: u16le vh ++ u.as_raw) ++ out.drop (3 + u.as_raw.length))
    ∧ AttributeData.decode_declaration (p :: u16le vh ++ u.as_raw)
      = .ok (.declaration p vh u) := by
  have hlpos := as_raw_length_pos u hu
  constructor
  · have h1 : ¬ (0 > u.as_raw.length + 3) := by omega
    have h2 : 0 + 1 ≤ out.length := by omega
    have h2a : 1 ≤ out.length := by omega
    have h3 : 1 + 2 ≤ out.length := by omega
    have h3a : 3 ≤ out.length := by omega
    have hmin : min (out.length - 3) u.as_raw.length = u.as_raw.length := by omega
    have h4 : 3 + u.as_raw.length ≤ out.length := hout
    have h4a : u.as_raw.length + 3 ≤ out.length := by omega
    have h5 : 3 < out.length := by omega
    have hcomm : u.as_raw.length + 3 = 3 + u.as_raw.length := by omega
    simp [AttributeData.read, AttributeData.readable, WriteCursor.new,
      WriteCursor.writeU8, WriteCursor.writeU16, WriteCursor.append,
      WriteCursor.available, WriteCursor.len, u16le,
      h1, h2, h2a, h3, h3a, hmin, hlpos, Nat.mod_eq_of_lt hp, List.take_length,
      h4, h4a, h5, hcomm]
  · have harith : vh % 256 + 256 * (vh / 256 % 256) = vh := by
      have hq : vh / 256 < 256 := by omega
      rw [Nat.mod_eq_of_lt hq]
      rw [Nat.mod_add_div vh 256]
    simp [AttributeData.decode_declaration, u16le, harith, from_slice_as_raw u hu]

/-- C7 witness: the declaration (props 0x12, value handle 0x0034, UUID
0x2A19) survives the encode/decode round trip. -/
theorem C7_declaration_roundtrip_witness :
    AttributeData.read trivial_handler CHARACTERISTIC_UUID16 2
        (.declaration 0x12 0x34 (Uuid.uuid16 [0x19, 0x2A])) 0 (List.replicate 19 0)
      = .ok (5, [0x12, 0x34, 0x00, 0x19, 0x2A] ++ (List.replicate 19 (0 : Nat)).drop 5)
    ∧ AttributeData.decode_declaration [0x12, 0x34, 0x00, 0x19, 0x2A]
      = .ok (.declaration 0x12 0x34 (Uuid.uuid16 [0x19, 0x2A])) :=
  C7_declaration_roundtrip 0x12 0x34 (Uuid.uuid16 [0x19, 0x2A])
    (List.replicate 19 0) trivial_handler CHARACTERISTIC_UUID16 2
    (by decide) (by decide) rfl (by decide)

/-- C8: notify fails with Other when the characteristic has no CCCD
handle; succeeds without sending a PDU when the connection is not
subscribed; and otherwise sends exactly one PDU of ATT payload 0x1B,
value_handle(2, LE), value behind a 4-byte L2CAP header with length and
channel 4. -/
theorem C8_notify_behaviour (st : List (Nat × Nat)) (conn vh cccd mtu : Nat)
    (value : List Nat)
    (hfit : 3 + value.length ≤ mtu - 4) :
    notify st ⟨vh, none⟩ conn value mtu = .error .other
    ∧ (should_notify st conn cccd = false →
        notify st ⟨vh, some cccd⟩ conn value mtu = .ok none)
    ∧ (should_notify st conn cccd = true →
        notify st ⟨vh, some cccd⟩ conn value mtu
          = .ok (some (u16le (3 + value.length) ++ [4, 0]
              ++ 0x1B :: u16le vh ++ value))) := by
  refine ⟨rfl, ?_, ?_⟩
  · intro hsn
    simp [notify, hsn]
  · intro hsn
    have h1 : 0 + 1 ≤ mtu - 4 := by omega
    have h1a : 1 ≤ mtu - 4 := by omega
    have h2 : 1 + 2 ≤ mtu - 4 := by omega
    have h2a : 3 ≤ mtu - 4 := by omega
    have h3 : 3 + value.length ≤ mtu - 4 := hfit
    have h3a : value.length + 3 ≤ mtu - 4 := by omega
    have hcomm : value.length + 3 = 3 + value.length := by omega
    simp [notify, hsn, WriteCursor.new, WriteCursor.writeU8, WriteCursor.writeU16,
      WriteCursor.append, WriteCursor.len, u16le,
      h1, h1a, h2, h2a, h3, h3a, hcomm]

/-- C8 witness: with connection 7 subscribed on CCCD handle 4, notifying
value handle 0x12 with payload [42] at MTU 27 emits the L2CAP-framed
notification 04 00 04 00 1B 12 00 2A; unsubscribed it emits nothing; a
characteristic without a CCCD fails with Other. -/
theorem C8_notify_behaviour_witness :
    notify [(4, 7)] ⟨0x12, none⟩ 7 [42] 27 = .error .other
    ∧ notify [] ⟨0x12, some 4⟩ 7 [42] 27 = .ok none
    ∧ notify [(4, 7)] ⟨0x12, some 4⟩ 7 [42] 27
        = .ok (some [4, 0, 4, 0, 0x1B, 0x12, 0x00, 42]) :=
  ⟨(C8_notify_behaviour [(4, 7)] 7 0x12 4 27 [42] (by decide)).1,
   (C8_notify_behaviour [] 7 0x12 4 27 [42] (by decide)).2.1 (by decide),
   (C8_notify_behaviour [(4, 7)] 7 0x12 4 27 [42] (by decide)).2.2 (by decide)⟩

/-- The write-request scan resolves the first attribute carrying the
requested handle; for a CCCD it applies the write and updates the
subscription registry with the new notifications flag. -/
lemma write_req_scan_cccd (hnd : AttrHandler) (conn handle d0 : Nat)
    (drest : List Nat) (st : List (Nat × Nat)) (pre post : List Attr) (a : Attr)
    (n0 i0 : Bool)
    (hpre : ∀ b ∈ pre, b.handle ≠ handle)
    (hhandle : a.handle = handle)
    (hdata : a.data = .cccd n0 i0) :
    write_req_scan hnd conn handle (d0 :: drest) st (pre ++ a :: post)
      = (.ok (),
         pre ++ { a with data := .cccd (d0.land 1 != 0) (d0.land 2 != 0) } :: post,
         set_notify st conn handle (d0.land 1 != 0)) := by
  induction pre with
  | nil =>
      have hhb : (a.handle == handle) = true := beq_iff_eq.mpr hhandle
      simp only [List.nil_append, write_req_scan, hhb, if_pos]
      rw [hdata]
      simp [AttributeData.writable, AttributeData.write]
  | cons b rest ih =>
      have hb : (b.handle == handle) = false :=
        beq_eq_false_iff_ne.mpr (hpre b (List.mem_cons_self b rest))
      have ihr := ih (fun x hx => hpre x (List.mem_cons_of_mem b hx))
      simp only [List.cons_append, write_req_scan, hb, Bool.false_eq_true, if_neg,
        not_false_iff, List.append_eq]
      rw [ihr]

/-- C4 counterexample: with all four registry slots taken by other
subscriptions, a successful CCCD write enabling notifications still
answers 0x13, but the registry update is silently dropped and
should_notify stays false for (conn, handle). -/
theorem C4_counterexample :
    (handle_write_req cccd_table full_registry trivial_handler 7 4 [1, 0] 23).map
        (fun r => (r.1, should_notify r.2.2 7 4))
      = .ok ([0x13], false) := by
  decide

/-- C4 amended: for a Write request resolving to a CCCD attribute
(nonzero handle), a successful CCCD write produces the single response
byte 0x13 after updating the registry via set_notify with the new
notifications flag; the entry for (conn, handle) then reflects that
flag provided the registry held at most one matching entry and, when
enabling, had a free slot or already contained the pair (a full
registry drops the enable silently). -/
theorem C4_cccd_write_response (pre post : List Attr) (a : Attr)
    (st : List (Nat × Nat)) (hnd : AttrHandler) (conn handle d0 : Nat)
    (drest : List Nat) (n0 i0 : Bool) (cap : Nat)
    (hpre : ∀ b ∈ pre, b.handle ≠ handle)
    (hhandle : a.handle = handle)
    (hdata : a.data = .cccd n0 i0)
    (hh0 : handle ≠ 0)
    (hcap : 1 ≤ cap)
    (hcount : st.countP (fun e => e.1 == handle && e.2 == conn) ≤ 1)
    (hfree : d0.land 1 ≠ 0 → (∃ e ∈ st, e.1 = 0) ∨ (handle, conn) ∈ st) :
    handle_write_req (pre ++ a :: post) st hnd conn handle (d0 :: drest) cap
      = .ok ([0x13],
             pre ++ { a with data := .cccd (d0.land 1 != 0) (d0.land 2 != 0) } :: post,
             set_notify st conn handle (d0.land 1 != 0))
    ∧ should_notify (set_notify st conn handle (d0.land 1 != 0)) conn handle
        = (d0.land 1 != 0) := by
  constructor
  · rw [handle_write_req,
      write_req_scan_cccd hnd conn handle d0 drest st pre post a n0 i0 hpre hhandle hdata]
    simp [WriteCursor.new, WriteCursor.writeU8, hcap]
  · cases hbit : (d0.land 1 != 0) with
    | true =>
        have hne : d0.land 1 ≠ 0 := by simpa using hbit
        simp only [set_notify, if_pos]
        exact should_notify_after_enable handle conn st (hfree hne)
    | false =>
        simp only [set_notify, Bool.false_eq_true, if_neg, not_false_iff, ite_false]
        exact should_notify_after_disable handle conn st hh0 hcount

/-- C4 witness: from the empty registry, writing 01 00 to the CCCD at
handle 4 for connection 7 answers 0x13 and registers the
subscription. -/
theorem C4_cccd_write_response_witness :
    handle_write_req cccd_table emptyNotificationTable trivial_handler 7 4 [1, 0] 23
      = .ok ([0x13],
             [{ uuid := CHARACTERISTIC_CCCD_UUID16, handle := 4,
                last_handle_in_group := 5, data := .cccd true false }],
             set_notify emptyNotificationTable 7 4 true)
    ∧ should_notify (set_notify emptyNotificationTable 7 4 true) 7 4 = true :=
  C4_cccd_write_response [] []
    { uuid := CHARACTERISTIC_CCCD_UUID16, handle := 4, last_handle_in_group := 5,
      data := .cccd false false }
    emptyNotificationTable trivial_handler 7 4 1 [0] false false 23
    (by simp) rfl rfl (by decide) (by decide) (by decide) (by decide)

end Trouble
